import Mathlib

/-!
Verification of the ylong_http_client connection/TLS core against its
design document.

The development shallowly embeds the two source files of the crate that
the claims concern:
* `src/error.rs` — the caller-visible error taxonomy (`HttpClientError`,
  `ErrorKind`);
* `src/util/c_openssl/ssl/ssl_base.rs` — the thin wrapper over the native
  TLS engine (`Ssl::connect`, `SslRef::{read, write, set_host_name,
  setup_verify_hostname, verify_result}`).

Native-engine behaviour (the OpenSSL FFI boundary) and crate modules that
only exist outside these two files are modelled from the design document;
every such definition carries a doc comment starting with
`Modelled from the spec:`.
-/

namespace YlongHttp

/-! ## Error taxonomy (`src/error.rs`) -/

/-- The closed `ErrorKind` enumeration of `error.rs`, constructors in the
source's declaration order. -/
inductive ErrorKind
  | BodyDecode
  | BodyTransfer
  | Build
  | Connect
  | ConnectionUpgrade
  | Other
  | Redirect
  | Request
  | Timeout
  | UserAborted
deriving DecidableEq

/-- Opaque diagnostic cause: in the source a boxed `dyn Error`; the claims
only need that a cause is an opaque payload, modelled as its message
bytes. -/
structure Cause where
  data : List Char
deriving DecidableEq

/-- `HttpClientError`: a kind plus an optional opaque cause. -/
structure HttpClientError where
  kind : ErrorKind
  cause : Option Cause
deriving DecidableEq

/-- `HttpClientError::user_aborted`. -/
def HttpClientError.user_aborted : HttpClientError :=
  { kind := ErrorKind.UserAborted, cause := none }

/-- `HttpClientError::other` (the `Into` conversion of the cause is the
identity in the model). -/
def HttpClientError.other (cause : Option Cause) : HttpClientError :=
  { kind := ErrorKind.Other, cause := cause }

/-- `HttpClientError::error_kind`. -/
def HttpClientError.error_kind (e : HttpClientError) : ErrorKind :=
  e.kind

/-- `HttpClientError::new_with_cause`. -/
def HttpClientError.new_with_cause (kind : ErrorKind) (cause : Option Cause) :
    HttpClientError :=
  { kind := kind, cause := cause }

/-- `HttpClientError::new_with_message` (wraps the message in a
`CauseMessage`). -/
def HttpClientError.new_with_message (kind : ErrorKind) (message : List Char) :
    HttpClientError :=
  { kind := kind, cause := some { data := message } }

/-- C3: the caller-visible error kind enumeration is closed: every
`HttpClientError` carries exactly one of the ten kinds `Connect`,
`ConnectionUpgrade`, `Request`, `BodyTransfer`, `BodyDecode`, `Redirect`,
`Timeout`, `UserAborted`, `Build`, `Other` plus an optional opaque
cause, and no other kind exists. -/
theorem error_kind_enumeration_closed (e : HttpClientError) :
    (e.error_kind = ErrorKind.Connect ∨
     e.error_kind = ErrorKind.ConnectionUpgrade ∨
     e.error_kind = ErrorKind.Request ∨
     e.error_kind = ErrorKind.BodyTransfer ∨
     e.error_kind = ErrorKind.BodyDecode ∨
     e.error_kind = ErrorKind.Redirect ∨
     e.error_kind = ErrorKind.Timeout ∨
     e.error_kind = ErrorKind.UserAborted ∨
     e.error_kind = ErrorKind.Build ∨
     e.error_kind = ErrorKind.Other) ∧
    e = { kind := e.error_kind, cause := e.cause } := by
  obtain ⟨k, c⟩ := e
  refine ⟨?_, rfl⟩
  cases k <;> simp [HttpClientError.error_kind]

/-- C6: the kind of an `HttpClientError` is fixed at construction:
`error_kind` returns exactly the kind supplied by the constructor that
created the value, and the optional cause never influences the reported
kind. -/
theorem error_kind_fixed_at_construction (k : ErrorKind)
    (c c' : Option Cause) (m : List Char) :
    (HttpClientError.new_with_cause k c).error_kind = k ∧
    (HttpClientError.new_with_message k m).error_kind = k ∧
    HttpClientError.user_aborted.error_kind = ErrorKind.UserAborted ∧
    (HttpClientError.other c).error_kind = ErrorKind.Other ∧
    (HttpClientError.new_with_cause k c).error_kind =
      (HttpClientError.new_with_cause k c').error_kind := by
  exact ⟨rfl, rfl, rfl, rfl, rfl⟩

/-- C8: `user_aborted()` builds a `UserAborted` error with no cause, and
`other(cause)` builds an `Other` error carrying exactly the supplied
cause. -/
theorem user_aborted_other_constructors (c : Option Cause) :
    HttpClientError.user_aborted.error_kind = ErrorKind.UserAborted ∧
    HttpClientError.user_aborted.cause = none ∧
    (HttpClientError.other c).error_kind = ErrorKind.Other ∧
    (HttpClientError.other c).cause = c := by
  exact ⟨rfl, rfl, rfl, rfl⟩

/-! ## TLS engine wrapper (`src/util/c_openssl/ssl/ssl_base.rs`) -/

/-- `ErrorStack` of the native-error module. Modelled from the spec: an
opaque diagnostic value drained from the engine's thread-local error
queue; the claims never inspect it. -/
structure ErrorStack where
deriving DecidableEq

/-- `ErrorStack::get()`. Modelled from the spec: drains the engine error
queue into an opaque value. -/
def ErrorStack.get : ErrorStack := {}

/-- `SslErrorCode` (crate module outside `ssl_base.rs`). Modelled from the
spec: a sentinel code fetched from the engine after a non-positive return;
only equality with the want-read / want-write sentinels matters. -/
structure SslErrorCode where
  code : Int
deriving DecidableEq

/-- The engine's want-read sentinel. -/
def SslErrorCode.WANT_READ : SslErrorCode := { code := 2 }

/-- The engine's want-write sentinel. -/
def SslErrorCode.WANT_WRITE : SslErrorCode := { code := 3 }

/-- The native per-session state behind the `SSL` handle. Modelled from
the spec: the session stores the verification outcome captured at
handshake completion, the configured verification hostname, and buffered
plaintext in each direction. -/
structure SslState where
  verifyResult : Int
  hostname : Option (List UInt8)
  inBytes : List UInt8
  outBytes : List UInt8
deriving DecidableEq

/-- `SslStream<S>`: an engine session paired with the transport it
drives. -/
structure SslStream (S : Type) where
  ssl : SslState
  inner : S
deriving DecidableEq

/-- `SslError` of the crate's ssl error module. Modelled from the spec:
carries the sentinel code the engine reported for the failed step. -/
structure SslError where
  code : SslErrorCode
deriving DecidableEq

/-- `MidHandshakeSslStream<S>`: a suspended handshake retaining the stream
and the step's error. -/
structure MidHandshakeSslStream (S : Type) where
  _stream : SslStream S
  error : SslError
deriving DecidableEq

/-- `HandshakeError<S>` of the crate's ssl error module. Modelled from the
spec: `SetupFailure` is the conversion applied by the `?` on
`SslStream::new_base`; the other two variants appear verbatim in
`Ssl::connect`. -/
inductive HandshakeError (S : Type)
  | SetupFailure (e : ErrorStack)
  | WouldBlock (mid : MidHandshakeSslStream S)
  | Failure (mid : MidHandshakeSslStream S)
deriving DecidableEq

/-- `Ssl::connect`: builds the base stream (`new_base`, supplied here as
an already-evaluated result), performs one engine handshake step whose
return code is `ret`, and classifies. `error` is the value
`stream.get_error(ret)` the engine reports for a non-positive `ret`. -/
def Ssl.connect {S : Type} (base : Except ErrorStack (SslStream S))
    (ret : Int) (error : SslError) :
    Except (HandshakeError S) (SslStream S) :=
  match base with
  | Except.error e => Except.error (HandshakeError.SetupFailure e)
  | Except.ok stream =>
    if 0 < ret then
      Except.ok stream
    else
      if error.code = SslErrorCode.WANT_READ ∨
         error.code = SslErrorCode.WANT_WRITE then
        Except.error (HandshakeError.WouldBlock
          { _stream := stream, error := error })
      else
        Except.error (HandshakeError.Failure
          { _stream := stream, error := error })

/-- C1: each handshake step of `Ssl::connect` is classified into exactly
one of three outcomes: a positive return code yields the established
stream; a non-positive code with a want-read or want-write sentinel
yields a `WouldBlock` suspension retaining the stream; any other
non-positive code yields a terminal `Failure`. -/
theorem connect_step_trichotomy {S : Type} (stream : SslStream S)
    (ret : Int) (error : SslError) :
    (Ssl.connect (Except.ok stream) ret error = Except.ok stream ↔
      0 < ret) ∧
    (Ssl.connect (Except.ok stream) ret error =
        Except.error (HandshakeError.WouldBlock
          { _stream := stream, error := error }) ↔
      ret ≤ 0 ∧ (error.code = SslErrorCode.WANT_READ ∨
                 error.code = SslErrorCode.WANT_WRITE)) ∧
    (Ssl.connect (Except.ok stream) ret error =
        Except.error (HandshakeError.Failure
          { _stream := stream, error := error }) ↔
      ret ≤ 0 ∧ ¬(error.code = SslErrorCode.WANT_READ ∨
                  error.code = SslErrorCode.WANT_WRITE)) := by
  unfold Ssl.connect
  by_cases hret : 0 < ret
  · simp [hret]
    try omega
  · by_cases hw : error.code = SslErrorCode.WANT_READ ∨
        error.code = SslErrorCode.WANT_WRITE
    · simp [hret, hw]
      try omega
    · simp [hret, hw]
      try omega

/-! ## Handshake state machine (`Ssl::connect` step classification plus
the resume discipline of spec §4.1) -/

/-- Want-direction of a suspended handshake. -/
inductive Want
  | read
  | write
deriving DecidableEq

/-- Handshake states of spec §4.1. -/
inductive HsState
  | unstarted
  | inProgress (w : Want)
  | established
  | failed
deriving DecidableEq

/-- One engine handshake step: the `SSL_connect` return code and the
sentinel the engine reports for it. -/
structure EngineStep where
  ret : Int
  code : SslErrorCode
deriving DecidableEq

/-- Classification of one engine step, exactly the branch structure of
`Ssl::connect`: positive return is established, non-positive with a
want sentinel is in-progress in that direction, anything else failed. -/
def stepOutcome (s : EngineStep) : HsState :=
  if 0 < s.ret then HsState.established
  else if s.code = SslErrorCode.WANT_READ then HsState.inProgress Want.read
  else if s.code = SslErrorCode.WANT_WRITE then HsState.inProgress Want.write
  else HsState.failed

/-- Modelled from the spec: `resume` re-invokes the engine step and is
valid only on a prior WouldBlock outcome; `Established` and `Failed` are
terminal, so driving them with a further step is a usage error
(`none`). -/
def hsStep : HsState → EngineStep → Option HsState
  | HsState.unstarted, s => some (stepOutcome s)
  | HsState.inProgress _, s => some (stepOutcome s)
  | HsState.established, _ => none
  | HsState.failed, _ => none

/-- Drive the handshake through a sequence of engine steps. -/
def hsRun (st : HsState) : List EngineStep → Option HsState
  | [] => some st
  | s :: rest =>
    match hsStep st s with
    | none => none
    | some st2 => hsRun st2 rest

/-- An engine step that makes no progress: non-positive return paired
with a want-read or want-write sentinel. -/
def blockedStep (s : EngineStep) : Prop :=
  s.ret ≤ 0 ∧ (s.code = SslErrorCode.WANT_READ ∨
               s.code = SslErrorCode.WANT_WRITE)

lemma stepOutcome_blocked (s : EngineStep) (hb : blockedStep s) :
    ∃ w, stepOutcome s = HsState.inProgress w := by
  obtain ⟨hle, hw⟩ := hb
  unfold stepOutcome
  rw [if_neg (by omega)]
  by_cases hr : s.code = SslErrorCode.WANT_READ
  · exact ⟨Want.read, by rw [if_pos hr]⟩
  · have hw' : s.code = SslErrorCode.WANT_WRITE := hw.resolve_left hr
    exact ⟨Want.write, by rw [if_neg hr, if_pos hw']⟩

lemma hsRun_blocked_aux (steps : List EngineStep) :
    ∀ st : HsState,
      (st = HsState.unstarted ∨ ∃ w, st = HsState.inProgress w) →
      (∀ s ∈ steps, blockedStep s) →
      ∀ r, hsRun st steps = some r →
        r = HsState.unstarted ∨ ∃ w, r = HsState.inProgress w := by
  induction steps with
  | nil =>
    intro st hst _ r hr
    simp [hsRun] at hr
    exact hr ▸ hst
  | cons s rest ih =>
    intro st hst hb r hr
    obtain ⟨w, hw⟩ := stepOutcome_blocked s (hb s (List.mem_cons_self s rest))
    have hstep : hsStep st s = some (stepOutcome s) := by
      rcases hst with h | ⟨w', h⟩ <;> rw [h] <;> rfl
    rw [hsRun, hstep] at hr
    exact ih (stepOutcome s) (Or.inr ⟨w, hw⟩)
      (fun x hx => hb x (List.mem_cons_of_mem s hx)) r hr

/-- C5: `Established` and `Failed` are terminal: as long as every engine
step is non-positive with a want sentinel, no run of begin/resume steps
reaches `Established`; a positive return code from any non-terminal state
yields `Established`; and stepping a terminal state again is a usage
error. -/
theorem handshake_terminal_states :
    (∀ steps : List EngineStep, (∀ s ∈ steps, blockedStep s) →
      hsRun HsState.unstarted steps ≠ some HsState.established) ∧
    (∀ (w : Option Want) (s : EngineStep), 0 < s.ret →
      hsStep (w.elim HsState.unstarted HsState.inProgress) s =
        some HsState.established) ∧
    (∀ s : EngineStep,
      hsStep HsState.established s = none ∧
      hsStep HsState.failed s = none) := by
  refine ⟨?_, ?_, ?_⟩
  · intro steps hb hEst
    rcases hsRun_blocked_aux steps HsState.unstarted (Or.inl rfl) hb
        HsState.established hEst with h | ⟨w, h⟩ <;> exact absurd h (by simp)
  · intro w s hs
    have hout : stepOutcome s = HsState.established := by
      unfold stepOutcome
      rw [if_pos hs]
    cases w <;> simp [hsStep, hout, Option.elim]
  · intro s
    exact ⟨rfl, rfl⟩

/-- Witness for C5 at concrete inputs: two blocked steps never establish;
a positive return from `Unstarted` establishes; stepping `Established`
again is a usage error. -/
theorem handshake_terminal_states_witness :
    hsRun HsState.unstarted
        [{ ret := -1, code := SslErrorCode.WANT_READ },
         { ret := 0, code := SslErrorCode.WANT_WRITE }] ≠
      some HsState.established ∧
    hsStep HsState.unstarted { ret := 1, code := SslErrorCode.WANT_READ } =
      some HsState.established ∧
    hsStep HsState.established { ret := 1, code := SslErrorCode.WANT_READ } =
      none := by
  refine ⟨?_, ?_, ?_⟩
  · refine handshake_terminal_states.1 _ ?_
    intro s hs
    simp only [List.mem_cons, List.not_mem_nil, or_false] at hs
    rcases hs with rfl | rfl
    · exact ⟨by decide, Or.inl rfl⟩
    · exact ⟨by decide, Or.inr rfl⟩
  · exact handshake_terminal_states.2.1 none _ (by decide)
  · exact (handshake_terminal_states.2.2 _).1

/-! ## Stream operations of `SslRef` -/

/-- `c_int::MAX`. -/
def C_INT_MAX : Nat := 2147483647

/-- The Rust `as c_int` cast applied to a `usize`: truncate to 32 bits
and reinterpret in two's complement. -/
def usize_as_c_int (n : Nat) : Int :=
  if n % 2 ^ 32 < 2 ^ 31 then ((n % 2 ^ 32 : Nat) : Int)
  else ((n % 2 ^ 32 : Nat) : Int) - 2 ^ 32

/-- `SslRef::read`: clamps the buffer length to `c_int::MAX` before
handing buffer and length to the engine's read (`SSL_read`, abstracted as
`sslRead`). -/
def SslRef.read (sslRead : SslState → List UInt8 → Int → Int × SslState)
    (st : SslState) (buf : List UInt8) : Int × SslState :=
  sslRead st buf (usize_as_c_int (min C_INT_MAX buf.length))

/-- `SslRef::write`: clamps the buffer length to `c_int::MAX` before
handing buffer and length to the engine's write (`SSL_write`, abstracted
as `sslWrite`). -/
def SslRef.write (sslWrite : SslState → List UInt8 → Int → Int × SslState)
    (st : SslState) (buf : List UInt8) : Int × SslState :=
  sslWrite st buf (usize_as_c_int (min C_INT_MAX buf.length))

lemma usize_as_c_int_of_small (n : Nat) (h : n < 2 ^ 31) :
    usize_as_c_int n = (n : Int) := by
  unfold usize_as_c_int
  rw [Nat.mod_eq_of_lt (by omega)]
  rw [if_pos h]

/-- C9: for every buffer handed to `SslRef::read` or `SslRef::write`, the
length passed to the native engine is `min(buffer length, c_int::MAX)`:
an over-long buffer is truncated to `c_int::MAX`, and the signed cast
never overflows into a negative length. -/
theorem read_write_length_clamped
    (sslRead sslWrite : SslState → List UInt8 → Int → Int × SslState)
    (st : SslState) (buf : List UInt8) :
    SslRef.read sslRead st buf =
      sslRead st buf ((min buf.length C_INT_MAX : Nat) : Int) ∧
    SslRef.write sslWrite st buf =
      sslWrite st buf ((min buf.length C_INT_MAX : Nat) : Int) ∧
    (0 : Int) ≤ ((min buf.length C_INT_MAX : Nat) : Int) ∧
    ((min buf.length C_INT_MAX : Nat) : Int) ≤ (C_INT_MAX : Nat) := by
  have hsmall : min C_INT_MAX buf.length < 2 ^ 31 := by
    have := Nat.min_le_left C_INT_MAX buf.length
    unfold C_INT_MAX at this ⊢
    omega
  have hcast : usize_as_c_int (min C_INT_MAX buf.length) =
      ((min buf.length C_INT_MAX : Nat) : Int) := by
    rw [usize_as_c_int_of_small _ hsmall, Nat.min_comm]
  refine ⟨?_, ?_, ?_, ?_⟩
  · unfold SslRef.read
    rw [hcast]
  · unfold SslRef.write
    rw [hcast]
  · exact Int.natCast_nonneg _
  · have := Nat.min_le_right buf.length C_INT_MAX
    exact_mod_cast this

/-! ## Hostname configuration (`SslRef::set_host_name`) -/

/-- `CString::new` of the standard library: fails exactly when the byte
string contains a NUL byte; otherwise appends the terminator. -/
def CString.new (bytes : List UInt8) : Option (List UInt8) :=
  if (0 : UInt8) ∈ bytes then none else some (bytes ++ [0])

/-- Modelled from the spec: the engine's
`SSL_ctrl(SSL_CTRL_SET_TLSEXT_HOSTNAME)` control operation stores the
hostname on the session and reports success. -/
def SSL_ctrl_set_hostname (st : SslState) (name : List UInt8) :
    SslState × Int :=
  ({ st with hostname := some name }, 1)

/-- `ssl_set_tlsext_host_name` of `ssl_base.rs`: forwards to the engine's
hostname control operation. -/
def ssl_set_tlsext_host_name (st : SslState) (name : List UInt8) :
    SslState × Int :=
  SSL_ctrl_set_hostname st name

/-- `check_ret`. Modelled from the spec: wraps an engine status code,
succeeding on 1 and draining the error queue otherwise. -/
def check_ret (ret : Int) : Except ErrorStack Int :=
  if ret = 1 then Except.ok ret else Except.error ErrorStack.get

/-- `SslRef::set_host_name`: converts the name to a C string — returning
the error-queue error before any engine call when the bytes contain a
NUL — and otherwise hands the C string to the engine's hostname control
operation, checking its status. -/
def SslRef.set_host_name (st : SslState) (name : List UInt8) :
    Except ErrorStack Unit × SslState :=
  match CString.new name with
  | none => (Except.error ErrorStack.get, st)
  | some cname =>
    let r := ssl_set_tlsext_host_name st cname
    ((check_ret r.2).map (fun _ => ()), r.1)

/-- C10: a host name containing a NUL byte makes `SslRef::set_host_name`
return an error without invoking the engine's hostname-setting
operation, leaving the session state (in particular its configured
hostname) unchanged. -/
theorem set_host_name_nul_rejected (st : SslState) (name : List UInt8)
    (h : (0 : UInt8) ∈ name) :
    SslRef.set_host_name st name = (Except.error ErrorStack.get, st) := by
  unfold SslRef.set_host_name CString.new
  rw [if_pos h]

/-- Witness for C10: the name `"h\x00i"` is rejected with the session
untouched. -/
theorem set_host_name_nul_rejected_witness :
    SslRef.set_host_name
        { verifyResult := 0, hostname := none, inBytes := [], outBytes := [] }
        [104, 0, 105] =
      (Except.error ErrorStack.get,
       { verifyResult := 0, hostname := none, inBytes := [], outBytes := [] }) :=
  set_host_name_nul_rejected _ _ (by decide)

/-! ## Verification result snapshot (`SslRef::verify_result`) -/

/-- `X509VerifyResult` wrapper around the engine's verification status
code. -/
structure X509VerifyResult where
  code : Int
deriving DecidableEq

/-- `X509VerifyResult::from_raw`. -/
def X509VerifyResult.from_raw (code : Int) : X509VerifyResult :=
  { code := code }

/-- Modelled from the spec: `SSL_get_verify_result` returns the stored
verification outcome captured at handshake completion; it does not re-run
verification. -/
def SSL_get_verify_result (st : SslState) : Int :=
  st.verifyResult

/-- `SslRef::verify_result`. -/
def SslRef.verify_result (st : SslState) : X509VerifyResult :=
  X509VerifyResult.from_raw (SSL_get_verify_result st)

/-- Modelled from the spec: the engine read hands out buffered plaintext,
up to the requested length; the verification snapshot is not part of the
I/O state it touches. -/
def SSL_read_model (st : SslState) (_buf : List UInt8) (len : Int) :
    Int × SslState :=
  let n := min len.toNat st.inBytes.length
  ((n : Int), { st with inBytes := st.inBytes.drop n })

/-- Modelled from the spec: the engine write consumes up to the requested
length from the caller's buffer; the verification snapshot is not part of
the I/O state it touches. -/
def SSL_write_model (st : SslState) (buf : List UInt8) (len : Int) :
    Int × SslState :=
  let n := min len.toNat buf.length
  ((n : Int), { st with outBytes := st.outBytes ++ buf.take n })

/-- Post-handshake operations available on an established stream. -/
inductive StreamOp
  | rd (buf : List UInt8)
  | wr (buf : List UInt8)
  | shn (name : List UInt8)
deriving DecidableEq

/-- Apply one post-handshake operation to the session state. -/
def applyOp (st : SslState) : StreamOp → SslState
  | StreamOp.rd buf => (SslRef.read SSL_read_model st buf).2
  | StreamOp.wr buf => (SslRef.write SSL_write_model st buf).2
  | StreamOp.shn name => (SslRef.set_host_name st name).2

/-- Apply a sequence of post-handshake operations. -/
def applyOps (st : SslState) (ops : List StreamOp) : SslState :=
  ops.foldl applyOp st

lemma applyOp_verifyResult (st : SslState) (op : StreamOp) :
    (applyOp st op).verifyResult = st.verifyResult := by
  cases op with
  | rd buf => rfl
  | wr buf => rfl
  | shn name =>
    have h0 : applyOp st (StreamOp.shn name) =
        (SslRef.set_host_name st name).2 := rfl
    rw [h0]
    unfold SslRef.set_host_name
    cases hc : CString.new name with
    | none => rfl
    | some cname => rfl

lemma applyOps_verifyResult (ops : List StreamOp) :
    ∀ st : SslState, (applyOps st ops).verifyResult = st.verifyResult := by
  induction ops with
  | nil => intro st; rfl
  | cons op rest ih =>
    intro st
    have h1 : applyOps st (op :: rest) = applyOps (applyOp st op) rest := rfl
    rw [h1, ih, applyOp_verifyResult]

/-- C4: `verify_result` reads the immutable snapshot captured at
handshake completion: it is a pure read of the stored outcome (never
recomputed), and any sequence of post-handshake stream operations leaves
it unchanged, so two calls with no intervening handshake activity return
the same value. -/
theorem verify_result_snapshot (st : SslState) (ops : List StreamOp) :
    SslRef.verify_result (applyOps st ops) = SslRef.verify_result st ∧
    SslRef.verify_result st = X509VerifyResult.from_raw st.verifyResult := by
  constructor
  · unfold SslRef.verify_result SSL_get_verify_result
    rw [applyOps_verifyResult]
  · rfl

/-! ## Verification target (`SslRef::setup_verify_hostname`) -/

/-- A parsed IP literal (standard-library `IpAddr`). -/
inductive IpAddr
  | v4 (a b c d : UInt8)
  | v6 (segs : List UInt16)
deriving DecidableEq

/-- The verification target configured on the engine's verify
parameters. -/
inductive HostTarget
  | ip (addr : IpAddr)
  | dns (name : List Char)
deriving DecidableEq

/-- `X509_CHECK_FLAG_NO_PARTIAL_WILDCARDS`. -/
def X509_CHECK_FLAG_NO_PARTIAL_WILDCARDS : Nat := 8

/-- The engine's per-session verify parameters (`X509VerifyParamRef`).
Modelled from the spec: host flags plus the configured verification
target. -/
structure X509VerifyParam where
  hostflags : Nat
  target : Option HostTarget
deriving DecidableEq

/-- Modelled from the spec: `X509_VERIFY_PARAM_set_hostflags` overwrites
the host flags. -/
def X509VerifyParam.set_hostflags (p : X509VerifyParam) (flags : Nat) :
    X509VerifyParam :=
  { p with hostflags := flags }

/-- Modelled from the spec: configure IP-match verification. -/
def X509VerifyParam.set_ip (p : X509VerifyParam) (addr : IpAddr) :
    Except ErrorStack Unit × X509VerifyParam :=
  (Except.ok (), { p with target := some (HostTarget.ip addr) })

/-- Modelled from the spec: configure DNS-name verification. -/
def X509VerifyParam.set_host (p : X509VerifyParam) (host : List Char) :
    Except ErrorStack Unit × X509VerifyParam :=
  (Except.ok (), { p with target := some (HostTarget.dns host) })

/-- `SslRef::setup_verify_hostname`: sets the no-partial-wildcards host
flag, then configures IP-match verification when the host parses as an
IP literal and DNS-name verification otherwise. `parse` stands for the
standard library's `IpAddr` parser invoked by `host.parse()`. -/
def SslRef.setup_verify_hostname (parse : List Char → Option IpAddr)
    (p : X509VerifyParam) (host : List Char) :
    Except ErrorStack Unit × X509VerifyParam :=
  let param := p.set_hostflags X509_CHECK_FLAG_NO_PARTIAL_WILDCARDS
  match parse host with
  | some ip => param.set_ip ip
  | none => param.set_host host

/-- Modelled from the spec: a partial-wildcard label `a*b` matches a
label that starts with `a`, ends with `b`, and is long enough to contain
both. -/
def partWildLabel (p h : List Char) : Bool :=
  match p.splitOn '*' with
  | [a, b] =>
    decide (a.length + b.length ≤ h.length) &&
    decide (h.take a.length = a) &&
    decide (h.drop (h.length - b.length) = b)
  | _ => decide (p = h)

/-- Modelled from the spec: one label of a certificate pattern against
one label of a hostname: a bare `*` label matches exactly one non-empty
label; a partial-wildcard label matches nothing when the
no-partial-wildcards flag is set; any other label must match
literally. -/
def labelMatches (hostflags : Nat) (p h : List Char) : Bool :=
  if p = ['*'] then decide (h ≠ [])
  else if p.contains '*' then
    if Nat.land hostflags X509_CHECK_FLAG_NO_PARTIAL_WILDCARDS ≠ 0 then false
    else partWildLabel p h
  else decide (p = h)

/-- Modelled from the spec: a certificate pattern matches a hostname when
both split into the same number of dot-separated labels and each pattern
label matches the corresponding hostname label; in particular a `*` spans
exactly one label. -/
def checkHostLabels (hostflags : Nat) :
    List (List Char) → List (List Char) → Bool
  | [], [] => true
  | p :: ps, h :: hs =>
    labelMatches hostflags p h && checkHostLabels hostflags ps hs
  | _, _ => false

/-- C2: `setup_verify_hostname` always sets the no-partial-wildcards host
flag; it configures IP-match verification exactly when the host parses as
an IP literal and DNS-name verification otherwise; and under the
configured matching a certificate pattern `*.example.com` does not match
the hostname `a.b.example.com`. -/
theorem setup_verify_hostname_configures (parse : List Char → Option IpAddr)
    (p : X509VerifyParam) (host : List Char) :
    (SslRef.setup_verify_hostname parse p host).2.hostflags =
      X509_CHECK_FLAG_NO_PARTIAL_WILDCARDS ∧
    (SslRef.setup_verify_hostname parse p host).2.target =
      some ((parse host).elim (HostTarget.dns host) HostTarget.ip) ∧
    checkHostLabels X509_CHECK_FLAG_NO_PARTIAL_WILDCARDS
      [['*'], ['e', 'x', 'a', 'm', 'p', 'l', 'e'], ['c', 'o', 'm']]
      [['a'], ['b'], ['e', 'x', 'a', 'm', 'p', 'l', 'e'], ['c', 'o', 'm']] =
      false := by
  refine ⟨?_, ?_, ?_⟩
  · unfold SslRef.setup_verify_hostname
    cases hp : parse host <;> rfl
  · unfold SslRef.setup_verify_hostname
    cases hp : parse host <;> rfl
  · decide

end YlongHttp
